import Mathlib

/-!
Verification of the churn-dashboard projection core (src/app.py).

The numeric pipeline of the app is embedded shallowly over ℚ:
`np.round` (round half to even) becomes `rne`/`round2`, pandas column
operations become functions `ℕ → ℚ` indexed by row, and the customer
projection loops (src/app.py lines 17-20 and 59-62) become the
recursive function `customers`.
-/

namespace Churn

/-- Round a rational to the nearest integer, ties to even
(the behaviour of `np.round(x)` / `np.round(x).astype(int)`). -/
def rne (q : ℚ) : ℤ :=
  if q - ⌊q⌋ < 1/2 then ⌊q⌋
  else if 1/2 < q - ⌊q⌋ then ⌊q⌋ + 1
  else if 2 ∣ ⌊q⌋ then ⌊q⌋ else ⌊q⌋ + 1

/-- `np.round(x, 2)`: round to two decimal places, ties to even. -/
def round2 (q : ℚ) : ℚ := (rne (q * 100) : ℚ) / 100

/-- Starting customer count, src/app.py line 15 (`customer_base = 500_000`). -/
def customer_base : ℚ := 500000

/-- The customer projection loop of src/app.py lines 17-20 (base data) and
59-62 / 123-126 (adjusted data), parameterised by the starting count and the
per-period churn-rate column it reads:
`customers[0] = base`; `customers[i] = customers[i-1] - customers[i-1] * (rate[i-1] / 100)`. -/
def customers (base : ℚ) (rate : ℕ → ℚ) : ℕ → ℚ
  | 0 => base
  | i + 1 => customers base rate i - customers base rate i * (rate i / 100)

/-- The base table built at src/app.py lines 24-30, parameterised by the raw
(pre-rounding) `arpu` and `churn_rate` arrays that the script draws at
lines 13-14.  Columns are functions of the row index. -/
structure BaseData where
  arpu : ℕ → ℚ
  churnRate : ℕ → ℚ
  customersCol : ℕ → ℤ
  revenueCol : ℕ → ℚ

/-- src/app.py lines 24-30: the stored columns round the raw draws
(`arpu.round(2)`, `churn_rate.round(2)`, `np.round(customers).astype(int)`,
`np.round(revenue, 2)`); the customers loop (lines 17-20) and the revenue list
(line 22) use the raw, unrounded values. -/
def mkBaseData (arpuRaw churnRaw : ℕ → ℚ) : BaseData where
  arpu := fun i => round2 (arpuRaw i)
  churnRate := fun i => round2 (churnRaw i)
  customersCol := fun i => rne (customers customer_base churnRaw i)
  revenueCol := fun i => round2 (arpuRaw i * customers customer_base churnRaw i)

/-- The adjusted table of the what-if tab: the base columns (the frame is a
copy of `base_data`, src/app.py line 52) plus the four `Adj` columns. -/
structure AdjData extends BaseData where
  adjARPU : ℕ → ℚ
  adjChurn : ℕ → ℚ
  adjCustomers : ℕ → ℤ
  adjRevenue : ℕ → ℚ

/-- src/app.py lines 52-64 (and, with `churn_adj` / `arpu_scenario_pct`,
the identical block at lines 119-128 inside the scenario loop):
`Adj ARPU ($) = (ARPU ($) * (1 + arpu_adjust_pct/100)).round(2)`,
`Adj Churn Rate (%) = (Churn Rate (%) + churn_adjust).clip(lower=0).round(2)`,
then the customers loop is re-run against the stored Adj Churn column, and
`Adj Revenue ($) = (Adj ARPU ($) * Adj Customers).round(2)` uses the stored
(rounded) Adj ARPU and Adj Customers columns. -/
def whatIf (d : BaseData) (churnAdjust arpuAdjustPct : ℚ) : AdjData :=
  let adjA : ℕ → ℚ := fun i => round2 (d.arpu i * (1 + arpuAdjustPct / 100))
  let adjC : ℕ → ℚ := fun i => round2 (max 0 (d.churnRate i + churnAdjust))
  let popAdj : ℕ → ℚ := customers customer_base adjC
  { toBaseData := d
    adjARPU := adjA
    adjChurn := adjC
    adjCustomers := fun i => rne (popAdj i)
    adjRevenue := fun i => round2 (adjA i * (rne (popAdj i) : ℚ)) }

/-- One row of a scenario output frame `df_out`, src/app.py lines 130-131:
the five displayed columns plus the `Scenario` tag. -/
structure ScenRow where
  month : ℕ
  adjARPU : ℚ
  adjChurn : ℚ
  adjCustomers : ℤ
  adjRevenue : ℚ
  scenario : String
  deriving DecidableEq

/-- One scenario frame of the comparison tab (src/app.py lines 118-132):
the adjusted projection for one `(name, churn_adj)` pair under the shared
ARPU scenario percentage, tagged with the scenario name.  `n` is the number
of rows of the base table (12 in the script). -/
def scenarioFrame (d : BaseData) (n : ℕ) (arpuPct : ℚ) (name : String) (churnAdj : ℚ) :
    List ScenRow :=
  let w := whatIf d churnAdj arpuPct
  (List.range n).map fun i =>
    { month := i
      adjARPU := w.adjARPU i
      adjChurn := w.adjChurn i
      adjCustomers := w.adjCustomers i
      adjRevenue := w.adjRevenue i
      scenario := name }

/-- src/app.py lines 114-132 and 141: one frame per scenario in input order,
concatenated (`pd.concat(scenario_frames, ignore_index=True)`). -/
def compareScenarios (d : BaseData) (n : ℕ) (arpuPct : ℚ)
    (scenarios : List (String × ℚ)) : List ScenRow :=
  (scenarios.map fun s => scenarioFrame d n arpuPct s.1 s.2).flatten

/-! ### Column-level model of the dataframe mutations

To reason about which columns the what-if block touches, the dataframe is
also modelled as an ordered association list from column names to columns,
with pandas column assignment `df[name] = col` replacing the column when the
name exists and appending it at the end otherwise. -/

/-- A dataframe column, as a function of the row index. -/
abbrev Col : Type := ℕ → ℚ

/-- A dataframe: an ordered list of named columns. -/
abbrev DF : Type := List (String × Col)

/-- Pandas column assignment `df[name] = c`: replace in place if the column
exists, else append at the end. -/
def dfSet (df : DF) (name : String) (c : Col) : DF :=
  if df.any (fun p => p.1 = name) then
    df.map (fun p => if p.1 = name then (name, c) else p)
  else
    df ++ [(name, c)]

/-- Column lookup `df[name]` (the all-zero column when absent). -/
def dfGet (df : DF) (name : String) : Col :=
  ((df.find? (fun p => p.1 = name)).map Prod.snd).getD (fun _ => 0)

/-- The `base_data` frame of src/app.py lines 24-30 as a named-column list,
with the `Month` label column represented by the row index. -/
def baseDF (arpuRaw churnRaw : ℕ → ℚ) : DF :=
  [("Month", fun i => (i : ℚ)),
   ("ARPU ($)", fun i => round2 (arpuRaw i)),
   ("Churn Rate (%)", fun i => round2 (churnRaw i)),
   ("Customers", fun i => (rne (customers customer_base churnRaw i) : ℚ)),
   ("Revenue ($)", fun i => round2 (arpuRaw i * customers customer_base churnRaw i))]

/-- The what-if block of src/app.py lines 52-64 at column level:
`data = base_data.copy()` followed by the four `data[...] = ...` assignments
(the scenario loop, lines 119-128, performs the same assignments on its own
copy `df`). -/
def whatIfDF (bd : DF) (churnAdjust arpuAdjustPct : ℚ) : DF :=
  let data := bd
  let data := dfSet data "Adj ARPU ($)"
    (fun i => round2 (dfGet data "ARPU ($)" i * (1 + arpuAdjustPct / 100)))
  let data := dfSet data "Adj Churn Rate (%)"
    (fun i => round2 (max 0 (dfGet data "Churn Rate (%)" i + churnAdjust)))
  let data := dfSet data "Adj Customers"
    (fun i => (rne (customers customer_base (dfGet data "Adj Churn Rate (%)") i) : ℚ))
  let data := dfSet data "Adj Revenue ($)"
    (fun i => round2 (dfGet data "Adj ARPU ($)" i * dfGet data "Adj Customers" i))
  data

/-! ### The spec's projection engine

src/app.py hardcodes the horizon (12 months), the starting population
(`customer_base`) and the base price column, and performs no parameter
validation; the `project(params)` contract below therefore follows the
spec text (section 4.1). -/

/-- Modelled from the spec: the `ScenarioParameters` record of section 3;
src/app.py has no such parameter record (its values are hardcoded at
lines 10-15). -/
structure ScenarioParameters where
  horizonPeriods : ℤ
  startingPopulation : ℚ
  basePricePerUnit : ℚ
  priceGrowthRatePerPeriod : ℚ
  baseAttritionRatePerPeriod : ℚ
  attritionTrendPerPeriod : ℚ
  deriving DecidableEq

/-- Modelled from the spec: the `InvalidParameter` error kind of section 7;
src/app.py raises no errors. -/
inductive ProjError where
  | InvalidParameter
  deriving DecidableEq

/-- Modelled from the spec: one `ProjectionRow` of section 3 (pre-rounding
values; rounding is presentation-only in the spec). -/
structure ProjectionRow where
  pricePerUnit : ℚ
  attritionRatePct : ℚ
  population : ℚ
  revenue : ℚ
  deriving DecidableEq

/-- Modelled from the spec, section 4.1 step 2:
`attritionRatePct[i] = max(floor, base + i * (trend/100))`. -/
def specAttrition (floor base trend : ℚ) (i : ℕ) : ℚ :=
  max floor (base + i * (trend / 100))

/-- Modelled from the spec, section 4.1 step 3:
`population[0] = startingPopulation`;
`population[i] = population[i-1] * (1 - attritionRatePct[i-1]/100)`. -/
def specPop (start : ℚ) (rate : ℕ → ℚ) : ℕ → ℚ
  | 0 => start
  | i + 1 => specPop start rate i * (1 - rate i / 100)

/-- Modelled from the spec, section 4.1: the `project` contract, with the
attrition floor exposed as a parameter (0.1 in the single-scenario variant,
0 in the comparison variant, per section 3).  Fails with `InvalidParameter`
iff `horizonPeriods <= 0`, `startingPopulation <= 0` or
`basePricePerUnit <= 0`; src/app.py contains no such function (module-level
setup at lines 10-22 is unvalidated), so this follows the spec text. -/
def project (floor : ℚ) (p : ScenarioParameters) :
    Except ProjError (List ProjectionRow) :=
  if p.horizonPeriods ≤ 0 ∨ p.startingPopulation ≤ 0 ∨ p.basePricePerUnit ≤ 0 then
    Except.error ProjError.InvalidParameter
  else
    let rate := specAttrition floor p.baseAttritionRatePerPeriod p.attritionTrendPerPeriod
    let pop := specPop p.startingPopulation rate
    let price := fun i : ℕ => p.basePricePerUnit * (1 + p.priceGrowthRatePerPeriod / 100) ^ i
    Except.ok ((List.range p.horizonPeriods.toNat).map fun i =>
      { pricePerUnit := price i
        attritionRatePct := rate i
        population := pop i
        revenue := pop i * price i })

/-! ### Helper lemmas -/

theorem rne_nonneg (q : ℚ) (hq : 0 ≤ q) : 0 ≤ rne q := by
  have hf : (0 : ℤ) ≤ ⌊q⌋ := Int.floor_nonneg.mpr hq
  unfold rne
  split_ifs <;> omega

theorem round2_nonneg (q : ℚ) (hq : 0 ≤ q) : 0 ≤ round2 q := by
  unfold round2
  have h := rne_nonneg (q * 100) (by positivity)
  have : (0 : ℚ) ≤ (rne (q * 100) : ℚ) := by exact_mod_cast h
  positivity

theorem customers_zero (base : ℚ) (rate : ℕ → ℚ) : customers base rate 0 = base := rfl

theorem customers_succ (base : ℚ) (rate : ℕ → ℚ) (i : ℕ) :
    customers base rate (i + 1) =
      customers base rate i - customers base rate i * (rate i / 100) := rfl

/-! ### Claims -/

/-- C1: the projected population follows the one-period-lag recurrence:
`population[0] = startingPopulation` and
`population[i+1] = population[i] * (1 - rate[i]/100)`, the previous period's
attrition rate driving this period's retained population; in the concrete
scenario (start 1,000,000, price 10, no growth, churn 5, no trend,
horizon 2) period 2's population is 950,000. -/
theorem C1_population_recurrence :
    (∀ (base : ℚ) (rate : ℕ → ℚ), customers base rate 0 = base) ∧
    (∀ (base : ℚ) (rate : ℕ → ℚ) (i : ℕ),
      customers base rate (i + 1) = customers base rate i * (1 - rate i / 100)) ∧
    ((project (1/10) ⟨2, 1000000, 10, 0, 5, 0⟩).toOption.getD []).map
        ProjectionRow.population = [1000000, 950000] := by
  refine ⟨fun base rate => rfl, fun base rate i => by rw [customers_succ]; ring, ?_⟩
  have ht : (2 : ℤ).toNat = 2 := rfl
  norm_num [project, specPop, specAttrition, Except.toOption, ht, List.range_succ]

/-- C2, counterexample: in the single-scenario what-if variant
(src/app.py line 56) the clamp is `clip(lower=0)`, so with base churn rate 2
and the permitted slider adjustment -2 the effective attrition rate is 0,
which is below the claimed 0.1% minimum. -/
theorem C2_counterexample :
    (whatIf (mkBaseData (fun _ => 5) (fun _ => 2)) (-2) 0).adjChurn 0 = 0 ∧
    ¬ ((1/10 : ℚ) ≤ (whatIf (mkBaseData (fun _ => 5) (fun _ => 2)) (-2) 0).adjChurn 0) := by
  constructor <;> norm_num [whatIf, mkBaseData, round2, rne]

/-- C2 (amended): in both the single-scenario and the multi-scenario
variants the effective attrition rate is floor-clamped at 0: it never goes
below 0 for any period and any adjustment value. -/
theorem C2_churn_floor_zero :
    (∀ (d : BaseData) (c a : ℚ) (i : ℕ), 0 ≤ (whatIf d c a).adjChurn i) ∧
    (∀ (d : BaseData) (n : ℕ) (pct : ℚ) (name : String) (cadj : ℚ),
      ∀ r ∈ scenarioFrame d n pct name cadj, 0 ≤ r.adjChurn) := by
  have key : ∀ (d : BaseData) (c a : ℚ) (i : ℕ), 0 ≤ (whatIf d c a).adjChurn i := by
    intro d c a i
    exact round2_nonneg _ (le_max_left _ _)
  refine ⟨key, ?_⟩
  intro d n pct name cadj r hr
  simp only [scenarioFrame, List.mem_map] at hr
  obtain ⟨i, _, rfl⟩ := hr
  exact key d cadj pct i

/-- C2 witness. -/
theorem C2_churn_floor_zero_witness :
    0 ≤ (whatIf (mkBaseData (fun _ => 3) (fun _ => 3)) 1 1).adjChurn 0 :=
  C2_churn_floor_zero.1 _ 1 1 0

/-- C3: `project` fails with `InvalidParameter` iff `horizonPeriods <= 0`,
`startingPopulation <= 0` or `basePricePerUnit <= 0` (so valid parameters
raise no error). -/
theorem C3_invalid_parameter_iff (floor : ℚ) (p : ScenarioParameters) :
    project floor p = Except.error ProjError.InvalidParameter ↔
      (p.horizonPeriods ≤ 0 ∨ p.startingPopulation ≤ 0 ∨ p.basePricePerUnit ≤ 0) := by
  unfold project
  split <;> simp_all

/-- C3 witness: `horizonPeriods = 0` yields `InvalidParameter`. -/
theorem C3_invalid_parameter_iff_witness :
    project (1/10) ⟨0, 1000000, 10, 0, 5, 0⟩ = Except.error ProjError.InvalidParameter :=
  (C3_invalid_parameter_iff (1/10) ⟨0, 1000000, 10, 0, 5, 0⟩).mpr (Or.inl le_rfl)

/-- C4, counterexample: the code applies the price adjustment as a flat
factor, not compounding in the period index: with constant base ARPU 10 and a
10% adjustment, the adjusted price at period 2 is 11, whereas the claimed
formula `base * (1 + pct/100)^i` gives 12.1. -/
theorem C4_counterexample :
    (whatIf (mkBaseData (fun _ => 10) (fun _ => 3)) 0 10).adjARPU 2 = 11 ∧
    (10 : ℚ) * (1 + 10/100) ^ (2 : ℕ) = 121/10 ∧ (11 : ℚ) ≠ 121/10 := by
  refine ⟨?_, by norm_num, by norm_num⟩
  norm_num [whatIf, mkBaseData, round2, rne]

/-- C4 (amended): the projected price applies the adjustment percentage as a
flat multiplicative factor, identical for every period:
`adjARPU[i] = round2(baseARPU[i] * (1 + pct/100))`, so periods with equal
base ARPU get equal adjusted price regardless of the period index. -/
theorem C4_flat_price_factor :
    (∀ (d : BaseData) (c a : ℚ) (i : ℕ),
      (whatIf d c a).adjARPU i = round2 (d.arpu i * (1 + a / 100))) ∧
    (∀ (d : BaseData) (c a : ℚ) (i j : ℕ), d.arpu i = d.arpu j →
      (whatIf d c a).adjARPU i = (whatIf d c a).adjARPU j) := by
  refine ⟨fun d c a i => rfl, fun d c a i j h => ?_⟩
  show round2 (d.arpu i * (1 + a / 100)) = round2 (d.arpu j * (1 + a / 100))
  rw [h]

/-- C4 witness. -/
theorem C4_flat_price_factor_witness :
    (whatIf (mkBaseData (fun _ => 10) (fun _ => 3)) 0 10).adjARPU 0 =
      (whatIf (mkBaseData (fun _ => 10) (fun _ => 3)) 0 10).adjARPU 5 :=
  C4_flat_price_factor.2 (mkBaseData (fun _ => 10) (fun _ => 3)) 0 10 0 5 rfl

/-- C5, counterexample: the adjusted revenue is computed from the rounded
Adj ARPU and Adj Customers columns, not from the pre-rounding values: with
constant base ARPU 4.57, churn 3, no churn adjustment and a +0.5% ARPU
adjustment, row 0's Adj Revenue is 2,295,000 while the product of the
pre-rounding price (4.59285) and the pre-rounding population (500,000)
is 2,296,425. -/
theorem C5_counterexample :
    (whatIf (mkBaseData (fun _ => 457/100) (fun _ => 3)) 0 (1/2)).adjRevenue 0 = 2295000 ∧
    (mkBaseData (fun _ => 457/100) (fun _ => 3)).arpu 0 * (1 + (1/2) / 100) *
      customers customer_base
        (whatIf (mkBaseData (fun _ => 457/100) (fun _ => 3)) 0 (1/2)).adjChurn 0 = 2296425 ∧
    (2295000 : ℚ) ≠ 2296425 := by
  refine ⟨?_, ?_, by norm_num⟩ <;>
    norm_num [whatIf, mkBaseData, customers, customer_base, round2, rne]

/-- C5 (amended): the base table's revenue is the pre-rounding product
`arpu[i] * customers[i]` (rounded only for display), while the adjusted
revenue is `round2(AdjARPU[i] * AdjCustomers[i])`, computed from the
already-rounded Adj ARPU and Adj Customers columns, so rounding feeds into
the adjusted revenue computation. -/
theorem C5_revenue_product :
    (∀ (ar cr : ℕ → ℚ) (i : ℕ),
      (mkBaseData ar cr).revenueCol i = round2 (ar i * customers customer_base cr i)) ∧
    (∀ (d : BaseData) (c a : ℚ) (i : ℕ),
      (whatIf d c a).adjRevenue i =
        round2 ((whatIf d c a).adjARPU i * ((whatIf d c a).adjCustomers i : ℚ))) :=
  ⟨fun _ _ _ => rfl, fun _ _ _ _ => rfl⟩

/-- C6, counterexample: non-negativity of the attrition rates alone does not
make the population non-increasing: with starting population 100 and a
constant rate of 150 (%), the population sequence is 100, -50, 25, and
period 2's population exceeds period 1's. -/
theorem C6_counterexample :
    ¬ ∀ (base : ℚ) (rate : ℕ → ℚ), (∀ i, 0 ≤ rate i) →
        ∀ i, customers base rate (i + 1) ≤ customers base rate i := by
  intro h
  have := h 100 (fun _ => 150) (fun _ => by norm_num) 1
  norm_num [customers] at this

/-- C6 (amended): whenever the clamped attrition rate lies in [0, 100] for
every period and the starting population is non-negative, the projected
population sequence is monotonically non-increasing. -/
theorem C6_population_monotone (base : ℚ) (rate : ℕ → ℚ)
    (hbase : 0 ≤ base) (hrate : ∀ i, 0 ≤ rate i ∧ rate i ≤ 100) (i : ℕ) :
    customers base rate (i + 1) ≤ customers base rate i := by
  have hpos : ∀ j, 0 ≤ customers base rate j := by
    intro j
    induction j with
    | zero => exact hbase
    | succ k ih =>
        rw [customers_succ]
        have h1 := (hrate k).1
        have h2 := (hrate k).2
        nlinarith
  rw [customers_succ]
  have h1 := (hrate i).1
  have hp := hpos i
  nlinarith

/-- C6 witness. -/
theorem C6_population_monotone_witness :
    customers 100 (fun _ => 5) 1 ≤ customers 100 (fun _ => 5) 0 :=
  C6_population_monotone 100 (fun _ => 5) (by norm_num) (fun _ => by norm_num) 0

/-- C7: the comparator's flattened output lists scenarios in input order
(its scenario-tag column is the input names, each repeated once per row), and
each scenario contributes exactly one frame of `n` rows. -/
theorem C7_comparator_order :
    (∀ (d : BaseData) (n : ℕ) (pct : ℚ) (name : String) (cadj : ℚ),
      (scenarioFrame d n pct name cadj).length = n) ∧
    (∀ (d : BaseData) (n : ℕ) (pct : ℚ) (scenarios : List (String × ℚ)),
      (compareScenarios d n pct scenarios).map ScenRow.scenario =
        (scenarios.map fun s => List.replicate n s.1).flatten) := by
  constructor
  · intro d n pct name cadj
    simp [scenarioFrame]
  · intro d n pct scenarios
    induction scenarios with
    | nil => rfl
    | cons s rest ih =>
        simp only [compareScenarios, List.map_cons, List.flatten_cons,
          List.map_append] at ih ⊢
        rw [ih]
        congr 1
        simp only [scenarioFrame, List.map_map]
        refine List.eq_replicate_iff.mpr ⟨by simp, ?_⟩
        intro b hb
        simp only [List.mem_map] at hb
        obtain ⟨i, _, rfl⟩ := hb
        rfl

/-- C8: with `horizonPeriods = 1` (and valid population and price), `project`
returns a single row whose population is the starting population and whose
price is the base price, with no attrition applied. -/
theorem C8_horizon_one (floor : ℚ) (p : ScenarioParameters)
    (h1 : p.horizonPeriods = 1) (h2 : 0 < p.startingPopulation)
    (h3 : 0 < p.basePricePerUnit) :
    ∃ r, project floor p = Except.ok [r] ∧
      r.population = p.startingPopulation ∧ r.pricePerUnit = p.basePricePerUnit := by
  refine ⟨{ pricePerUnit := p.basePricePerUnit
            attritionRatePct :=
              specAttrition floor p.baseAttritionRatePerPeriod p.attritionTrendPerPeriod 0
            population := p.startingPopulation
            revenue := p.startingPopulation * p.basePricePerUnit }, ?_, rfl, rfl⟩
  unfold project
  rw [if_neg]
  · rw [h1]
    norm_num [specPop, List.range_succ, List.range_zero]
  · push_neg
    exact ⟨by omega, h2, h3⟩

/-- C8 witness. -/
theorem C8_horizon_one_witness :
    ∃ r, project 0 ⟨1, 500000, 10, 0, 5, 0⟩ = Except.ok [r] ∧
      r.population = (500000 : ℚ) ∧ r.pricePerUnit = (10 : ℚ) :=
  C8_horizon_one 0 ⟨1, 500000, 10, 0, 5, 0⟩ rfl (by norm_num) (by norm_num)

/-- C9: the projection is deterministic: identical base draws and identical
adjustments produce identical what-if tables and identical comparator
outputs (the embedding takes no hidden random or mutable state). -/
theorem C9_deterministic (ar cr ar2 cr2 : ℕ → ℚ) (c a c2 a2 : ℚ)
    (har : ar = ar2) (hcr : cr = cr2) (hc : c = c2) (ha : a = a2) :
    whatIf (mkBaseData ar cr) c a = whatIf (mkBaseData ar2 cr2) c2 a2 ∧
    ∀ (n : ℕ) (pct : ℚ) (scenarios : List (String × ℚ)),
      compareScenarios (mkBaseData ar cr) n pct scenarios =
        compareScenarios (mkBaseData ar2 cr2) n pct scenarios := by
  subst har; subst hcr; subst hc; subst ha
  exact ⟨rfl, fun _ _ _ => rfl⟩

/-- C9 witness. -/
theorem C9_deterministic_witness :
    whatIf (mkBaseData (fun _ => 5) (fun _ => 3)) 1 2 =
      whatIf (mkBaseData (fun _ => 5) (fun _ => 3)) 1 2 :=
  (C9_deterministic (fun _ => 5) (fun _ => 3) (fun _ => 5) (fun _ => 3)
    1 2 1 2 rfl rfl rfl rfl).1

/-- C10: the what-if block only appends the four new `Adj` columns to a copy
of the base table: the first five columns of the result are exactly the base
table's columns, and the result's column names are the base names followed by
the four `Adj` names. -/
theorem C10_frame_new_columns_only (ar cr : ℕ → ℚ) (c a : ℚ) :
    (whatIfDF (baseDF ar cr) c a).take 5 = baseDF ar cr ∧
    (whatIfDF (baseDF ar cr) c a).map Prod.fst =
      ["Month", "ARPU ($)", "Churn Rate (%)", "Customers", "Revenue ($)",
       "Adj ARPU ($)", "Adj Churn Rate (%)", "Adj Customers", "Adj Revenue ($)"] := by
  constructor <;> simp [whatIfDF, dfSet, dfGet, baseDF]

end Churn
